import Mathlib

/-!
Verification development for the social-media content pipeline repository.
It embeds, as Lean definitions, the database schema constraints and views of
src/database_schema.sql, the frontend store (src/frontend/src/app/stores/app-store.ts)
and the optimizer component (src/frontend/src/app/components/social-media-optimizer.tsx).
Components whose implementation is absent from the repository (the approval
workflow engine, the usage governor, the engagement predictor) are modelled
from the design documents; each such definition says so in its doc comment.
-/

/-! ## Database schema: content_requests (database_schema.sql lines 178-217) -/

/-- The value set of the CHECK constraint on content_requests.status
(database_schema.sql line 204). -/
def contentRequestStatuses : List String :=
  ["pending", "processing", "generated", "review", "approved", "rejected",
   "published", "archived"]

/-- status IN (...) from the CHECK constraint on content_requests.status. -/
def contentRequestStatusOk (s : String) : Bool :=
  contentRequestStatuses.contains s

/-- The CHECK constraint on content_requests.content_type (line 189). -/
def contentTypeOk (s : String) : Bool :=
  (["post", "story", "cover", "ad", "infographic", "carousel"] : List String).contains s

/-- The constrained columns of a content_requests row: status (line 204),
priority with CHECK priority >= 1 AND priority <= 10 (line 205) and
content_type (line 189). -/
structure ContentRequestRow where
  status : String
  priority : Int
  content_type : String
deriving DecidableEq

/-- Conjunction of the CHECK constraints of content_requests. -/
def contentRequestChecks (r : ContentRequestRow) : Bool :=
  contentRequestStatusOk r.status
    && (decide (1 ≤ r.priority) && decide (r.priority ≤ 10))
    && contentTypeOk r.content_type

/-- INSERT into content_requests: the row is stored only when every CHECK
constraint holds. -/
def insertContentRequest (r : ContentRequestRow) : Option ContentRequestRow :=
  if contentRequestChecks r then some r else none

/-- UPDATE of content_requests.status: the updated row is stored only when
every CHECK constraint holds on it. -/
def updateContentRequestStatus (r : ContentRequestRow) (s : String) :
    Option ContentRequestRow :=
  if contentRequestChecks { r with status := s } then some { r with status := s }
  else none

/-- The WHERE filter of the view v_active_content_requests
(database_schema.sql line 711): status NOT IN ('archived', 'cancelled'). -/
def vActiveStatusFilter (s : String) : Bool :=
  !((["archived", "cancelled"] : List String).contains s)

/-- Rows of content_requests reachable through the schema's mutation paths:
a checked INSERT, or a checked UPDATE of the status column. -/
inductive ReachableCR : ContentRequestRow → Prop
  | insert (r r' : ContentRequestRow) (h : insertContentRequest r = some r') :
      ReachableCR r'
  | update (r : ContentRequestRow) (s : String) (r' : ContentRequestRow)
      (hr : ReachableCR r) (h : updateContentRequestStatus r s = some r') :
      ReachableCR r'

/-- A sample row satisfying every CHECK constraint of content_requests. -/
def sampleContentRequest : ContentRequestRow :=
  { status := "pending", priority := 5, content_type := "post" }

/-! ## Database schema: brand_profiles and generated_assets (lines 67-105, 220-260)
and the view v_brand_compliance_summary (lines 714-725) -/

/-- brand_profiles.minimum_compliance_score is DECIMAL(3,2) DEFAULT 0.80
(database_schema.sql line 97). -/
def defaultMinimumComplianceScore : ℚ := 80 / 100

/-- The compliance-relevant columns of a brand_profiles row (lines 96-99). -/
structure BrandProfileRow where
  enforcement_level : String
  minimum_compliance_score : ℚ
  is_active : Bool
deriving DecidableEq

/-- The compliance-relevant columns of a generated_assets row (lines 245-248).
compliance_score is a nullable DECIMAL(3,2). -/
structure GeneratedAssetRow where
  compliance_score : Option ℚ
  validation_status : String
deriving DecidableEq

/-- SQL comparison `score >= threshold` with NULL semantics: a NULL score
compares as unknown, so the CASE WHEN of the view does not count it. -/
def sqlGeScore (a : Option ℚ) (b : ℚ) : Bool :=
  match a with
  | none => false
  | some x => decide (b ≤ x)

/-- SQL comparison `score < threshold` with NULL semantics. -/
def sqlLtScore (a : Option ℚ) (b : ℚ) : Bool :=
  match a with
  | none => false
  | some x => decide (x < b)

/-- compliant_assets of v_brand_compliance_summary (line 720):
COUNT(CASE WHEN ga.compliance_score >= bp.minimum_compliance_score THEN 1 END). -/
def compliantAssets (bp : BrandProfileRow) (assets : List GeneratedAssetRow) : Nat :=
  (assets.filter (fun ga => sqlGeScore ga.compliance_score bp.minimum_compliance_score)).length

/-- non_compliant_assets of v_brand_compliance_summary (line 721):
COUNT(CASE WHEN ga.compliance_score < bp.minimum_compliance_score THEN 1 END). -/
def nonCompliantAssets (bp : BrandProfileRow) (assets : List GeneratedAssetRow) : Nat :=
  (assets.filter (fun ga => sqlLtScore ga.compliance_score bp.minimum_compliance_score)).length

/-! ## Database schema: api_usage (lines 344-377) -/

/-- The DECIMAL(p, s) representability test of PostgreSQL for p = 10, s = 4
(the type of api_usage.cost_per_request, line 362): at most four fractional
digits and magnitude below 10^6. This is the only constraint the schema puts
on the column; api_usage declares no CHECK constraint at all. -/
def decimal104Ok (c : ℚ) : Bool :=
  decide (c.den ∣ 10000) && decide (|c| < 1000000)

/-- The columns of an api_usage row relevant to cost accounting. The NOT NULL
columns (organization_id, api_provider, endpoint, method) are non-optional
fields; the nullable ones are Options. -/
structure ApiUsageRow where
  organization_id : String
  api_provider : String
  endpoint : String
  method : String
  cost_per_request : Option ℚ
  response_status : Option Int
  response_time_ms : Option Int
deriving DecidableEq

/-- INSERT into api_usage: the schema validates only representability of the
declared column types; there is no CHECK constraint on this table, in
particular none on the sign of cost_per_request. -/
def insertApiUsage (r : ApiUsageRow) : Option ApiUsageRow :=
  if (match r.cost_per_request with
      | none => true
      | some c => decimal104Ok c) then some r else none

/-- A concrete api_usage row whose cost_per_request is negative. -/
def negCostUsageRow : ApiUsageRow :=
  { organization_id := "org-1"
    api_provider := "freepik"
    endpoint := "/v1/resources"
    method := "GET"
    cost_per_request := some (-1)
    response_status := some 200
    response_time_ms := some 120 }

/-! ## Frontend store types (src/frontend/src/app/stores/app-store.ts lines 4-48) -/

/-- SocialPlatform (app-store.ts line 4). -/
inductive SocialPlatform
  | instagram
  | linkedin
  | twitter
  | facebook
deriving DecidableEq

/-- ContentType (app-store.ts line 5). -/
inductive ContentType
  | post
  | story
  | carousel
  | infographic
  | video
  | article
deriving DecidableEq

/-- ToneOfVoice (app-store.ts line 6). -/
inductive ToneOfVoice
  | professional
  | thought_leader
  | educational
  | inspirational
  | conversational
deriving DecidableEq

/-- image_specs of ContentOptimization (app-store.ts lines 16-23). -/
structure ImageSpecs where
  dimensions : Int × Int
  aspect_ratio : ℚ
  format : String
  quality : Int
  color_profile : String
  brand_elements_required : Bool
deriving DecidableEq

/-- ContentOptimization (app-store.ts lines 8-28). The two Record fields are
association lists keyed by the record's string keys. -/
structure ContentOptimization where
  platform : SocialPlatform
  content_type : ContentType
  title : String
  caption : String
  hashtags : List String
  tone : ToneOfVoice
  call_to_action : String
  image_specs : ImageSpecs
  engagement_elements : List String
  optimal_posting_time : String
  performance_predictions : List (String × ℚ)
  brand_compliance : List (String × Bool)
deriving DecidableEq

/-- EngagementPrediction (app-store.ts lines 30-37). -/
structure EngagementPrediction where
  predicted_metrics : List (String × ℚ)
  confidence_score : ℚ
  key_factors : List String
  optimization_suggestions : List String
  risk_factors : List String
  expected_timeline : List (String × ℚ)
deriving DecidableEq

/-- addToHistory (app-store.ts lines 108-112):
newHistory = [optimization, ...optimizationHistory.slice(0, 9)]. -/
def addToHistory (optimization : ContentOptimization)
    (optimizationHistory : List ContentOptimization) : List ContentOptimization :=
  optimization :: optimizationHistory.take 9

/-- The optimizationHistory after a sequence of addToHistory calls starting
from the store's initial state (optimizationHistory: [], app-store.ts line 101). -/
def historyAfter (ops : List ContentOptimization) : List ContentOptimization :=
  ops.foldl (fun h o => addToHistory o h) []

/-! ## The optimizer component
(src/frontend/src/app/components/social-media-optimizer.tsx) -/

/-- The characters String.prototype.trim removes (ASCII whitespace, NBSP and
the BOM; the further Unicode space characters do not occur in these inputs). -/
def jsWhitespaceChar (c : Char) : Bool :=
  c = ' ' || c = '\t' || c = '\n' || c = '\r' || c = '\x0b' || c = '\x0c'
    || c = ' ' || c = '﻿'

/-- JavaScript String.prototype.trim. -/
def jsTrim (s : String) : String :=
  String.mk (((s.data.dropWhile jsWhitespaceChar).reverse.dropWhile jsWhitespaceChar).reverse)

/-- The fetch calls handleOptimizeContent and getPrediction can issue
(social-media-optimizer.tsx lines 121, 153, 196). -/
inductive ApiRequest
  | optimizeSingle
  | multiPlatform
  | predictEngagement
deriving DecidableEq

/-- The component's state touched by handleOptimizeContent: the store fields
it reads and writes plus the local apiError useState. -/
structure AppState where
  isLoading : Bool
  currentOptimization : Option ContentOptimization
  multiPlatformCampaign : Option (List (String × List ContentOptimization))
  engagementPrediction : Option EngagementPrediction
  optimizationHistory : List ContentOptimization
  inputContent : String
  selectedPlatforms : List SocialPlatform
  selectedContentType : ContentType
  selectedTone : ToneOfVoice
  targetAudience : String
  apiError : Option String

/-- The environment of one handleOptimizeContent run: what each fetch would
return (response.ok, response.status, parsed body). -/
structure FetchEnv where
  singleOk : Bool
  singleStatus : Int
  singlePayload : ContentOptimization
  multiOk : Bool
  multiStatus : Int
  multiPayload : List (String × List ContentOptimization)
  predictOk : Bool
  predictPayload : EngagementPrediction

/-- getPrediction (social-media-optimizer.tsx lines 194-216): on an ok
response the engagement prediction is stored; a failed response only logs. -/
def getPrediction (env : FetchEnv) (st : AppState) : AppState :=
  if env.predictOk then { st with engagementPrediction := some env.predictPayload } else st

/-- handleOptimizeContent (social-media-optimizer.tsx lines 103-192), as a
function from the fetch environment and the state to the new state and the
list of fetch calls issued. The blank-input guard (lines 104-113) returns
before setIsLoading; the single-platform branch stores the optimization, adds
it to the history and requests a prediction; the multi-platform branch stores
the campaign; a non-ok response sets apiError; finally isLoading is cleared. -/
def handleOptimizeContent (env : FetchEnv) (st : AppState) :
    AppState × List ApiRequest :=
  if jsTrim st.inputContent = "" then
    (st, [])
  else
    let st1 := { st with isLoading := true, apiError := none }
    if st1.selectedPlatforms.length = 1 then
      if env.singleOk then
        let opt := env.singlePayload
        let st2 := { st1 with
          currentOptimization := some opt
          optimizationHistory := addToHistory opt st1.optimizationHistory }
        let st3 := getPrediction env st2
        ({ st3 with isLoading := false },
         [ApiRequest.optimizeSingle, ApiRequest.predictEngagement])
      else
        ({ st1 with
            apiError := some ("API Error: " ++ toString env.singleStatus)
            isLoading := false },
         [ApiRequest.optimizeSingle])
    else
      if env.multiOk then
        ({ st1 with multiPlatformCampaign := some env.multiPayload, isLoading := false },
         [ApiRequest.multiPlatform])
      else
        ({ st1 with
            apiError := some ("API Error: " ++ toString env.multiStatus)
            isLoading := false },
         [ApiRequest.multiPlatform])

/-! ## AnalyticsPanel (social-media-optimizer.tsx lines 595-740) -/

/-- Object.values(campaign).flat() over the campaign record. -/
def flatCampaign (campaign : List (String × List ContentOptimization)) :
    List ContentOptimization :=
  campaign.foldr (fun p acc => p.2 ++ acc) []

/-- The empty-state guard of AnalyticsPanel (lines 605-614):
`if (!optimization && !campaign)` — it checks both for null (falsy), and a
non-null campaign object passes it whether or not it holds any platform. -/
def analyticsEmptyGuard (optimization : Option ContentOptimization)
    (campaign : Option (List (String × List ContentOptimization))) : Bool :=
  optimization.isNone && campaign.isNone

/-- JavaScript number division with a zero divisor yields a non-finite value
(NaN for 0/0, signed infinity otherwise); both render as a non-number, so the
result is modelled as none. -/
def jsDiv (a b : ℚ) : Option ℚ :=
  if b = 0 then none else some (a / b)

/-- Lookup of `performance_predictions.engagement_rate || 0` (line 719). -/
def engagementRateOrZero (o : ContentOptimization) : ℚ :=
  ((o.performance_predictions.find? (fun p => p.1 == "engagement_rate")).map Prod.snd).getD 0

/-- The Avg Engagement statistic of the campaign overview (lines 715-723):
sum of engagement rates over the flattened campaign, divided by the flattened
length, times 100. -/
def avgEngagementStat (campaign : List (String × List ContentOptimization)) : Option ℚ :=
  let opts := flatCampaign campaign
  (jsDiv ((opts.map engagementRateOrZero).sum) opts.length).map (fun x => x * 100)

/-- The Brand Compliance statistic (lines 724-733): count of optimizations
whose brand_compliance.overall_compliant is truthy, divided by the flattened
length, times 100. -/
def brandComplianceStat (campaign : List (String × List ContentOptimization)) : Option ℚ :=
  let opts := flatCampaign campaign
  (jsDiv
    (opts.filter (fun o =>
      ((o.brand_compliance.find? (fun p => p.1 == "overall_compliant")).map Prod.snd).getD false)).length
    opts.length).map (fun x => x * 100)

/-! ## Approval workflow engine -/

/-- The decision values of a content_approvals step record
(database_schema.sql line 326). -/
inductive Decision
  | pending
  | approved
  | rejected
  | delegated
deriving DecidableEq

/-- Modelled from the spec: the Approval Workflow Engine (spec section 4.6)
has no implementation in the repository; src holds only the content_approvals
and content_requests table declarations. State of one request inside review:
the request status, and the step records created so far in step order
(records are created when a step becomes active, so position k holds step
k+1). -/
structure WfState where
  requestStatus : String
  decisions : List Decision
deriving DecidableEq

/-- Modelled from the spec: a request entering review with step 1 active. -/
def initWf : WfState :=
  { requestStatus := "review", decisions := [Decision.pending] }

/-- Modelled from the spec (section 4.6): one decision event applied to the
active (last, pending) step of a workflow of n configured steps. approved
marks the step and activates the next step, or the request when it was the
last; rejected marks the step and moves the whole request to rejected,
creating no further records; delegated reassigns the approver and keeps the
step pending; decisions outside review are workflow violations and change
nothing. -/
def applyDecision (n : Nat) (st : WfState) (d : Decision) : WfState :=
  if st.requestStatus = "review" then
    match st.decisions.getLast? with
    | some Decision.pending =>
      match d with
      | Decision.approved =>
        if (st.decisions.dropLast ++ [Decision.approved]).length < n then
          { requestStatus := "review",
            decisions := st.decisions.dropLast ++ [Decision.approved] ++ [Decision.pending] }
        else
          { requestStatus := "approved",
            decisions := st.decisions.dropLast ++ [Decision.approved] }
      | Decision.rejected =>
        { requestStatus := "rejected",
          decisions := st.decisions.dropLast ++ [Decision.rejected] }
      | _ => st
    | _ => st
  else st

/-- The workflow state after a sequence of decision events. -/
def runWf (n : Nat) (ds : List Decision) : WfState :=
  ds.foldl (applyDecision n) initWf

/-- The fail-fast invariant: inside review no step is rejected, and once a
rejected record exists, the request is rejected and the rejected record is
the last record created. -/
def WfInv (st : WfState) : Prop :=
  (st.requestStatus = "review" → Decision.rejected ∉ st.decisions) ∧
  (Decision.rejected ∈ st.decisions →
    st.requestStatus = "rejected" ∧
      ∃ pre, st.decisions = pre ++ [Decision.rejected] ∧ Decision.rejected ∉ pre)

/-! ## Usage governor -/

/-- Modelled from the spec: the Usage Governor (spec sections 4.2, 5) has no
implementation in the repository; src holds only its configuration rows in
system_settings (database_schema.sql lines 748-749) and the api_usage tables.
The token bucket keyed by (org, provider): capacity, and the tokens left in
the current window. -/
structure Bucket where
  capacity : Nat
  tokens : Nat
deriving DecidableEq

/-- The outcome of reserve: a Grant, or a fail-fast RateLimited denial. -/
inductive ReserveOutcome
  | grant
  | rateLimited
deriving DecidableEq

/-- Modelled from the spec: reserve admits a call while tokens remain, taking
one token atomically (the spec mandates a compare-and-swap or mutex-guarded
counter, so every interleaving of concurrent calls linearizes to a sequence
of these atomic steps). -/
def Bucket.reserve (b : Bucket) : ReserveOutcome × Bucket :=
  if b.tokens = 0 then (ReserveOutcome.rateLimited, b)
  else (ReserveOutcome.grant, { b with tokens := b.tokens - 1 })

/-- One thread's reserve call folded into (grants so far, bucket). -/
def reserveStep (acc : Nat × Bucket) (_tid : Nat) : Nat × Bucket :=
  let r := acc.2.reserve
  (acc.1 + (if r.1 = ReserveOutcome.grant then 1 else 0), r.2)

/-- N concurrent reserve calls under one linearization order `schedule` (the
list of thread ids in the order their atomic steps took effect): the number
of Grants handed out and the final bucket. -/
def runReserves (b : Bucket) (schedule : List Nat) : Nat × Bucket :=
  schedule.foldl reserveStep (0, b)

/-- The freepik rate limit row of system_settings (database_schema.sql line 748). -/
def freepikRateLimitPerSecond : Nat := 45

/-- The freepik daily quota row of system_settings (database_schema.sql line 749). -/
def freepikDailyQuota : Nat := 10000

/-! ## Engagement predictor -/

/-- The timeline horizons of expected_timeline, in increasing time order
(spec section 3: `1h,6h,24h,7d`). -/
def timelineKeys : List String := ["1h", "6h", "24h", "7d"]

/-- Modelled from the spec: the Engagement Predictor (spec section 4.5) has
no implementation in the repository; src holds only the EngagementPrediction
interface (app-store.ts lines 30-37). Per-platform reach increments per
horizon — the fixed lookup table the spec prescribes for platform-dependent
rates. -/
def reachIncrements (p : SocialPlatform) : List ℚ :=
  match p with
  | SocialPlatform.instagram => [35 / 100, 30 / 100, 25 / 100, 10 / 100]
  | SocialPlatform.linkedin => [20 / 100, 30 / 100, 35 / 100, 15 / 100]
  | SocialPlatform.twitter => [50 / 100, 25 / 100, 15 / 100, 10 / 100]
  | SocialPlatform.facebook => [30 / 100, 30 / 100, 25 / 100, 15 / 100]

/-- Partial sums of a list: the total accumulated through each position. -/
def cumSums : List ℚ → List ℚ
  | [] => []
  | w :: ws => w :: (cumSums ws).map (fun x => w + x)

/-- Cumulative-reach fractions: the share of the total reach accumulated by
each horizon (spec section 3: the timeline maps horizons to cumulative-reach
fractions). -/
def cumFractions (ws : List ℚ) : List ℚ :=
  (cumSums ws).map (fun x => x / ws.sum)

/-- Modelled from the spec: the base engagement rate per platform/tone
combination (spec section 4.5's lookup table). -/
def baseRate (p : SocialPlatform) (t : ToneOfVoice) : ℚ :=
  (match p with
   | SocialPlatform.instagram => 8 / 100
   | SocialPlatform.linkedin => 6 / 100
   | SocialPlatform.twitter => 5 / 100
   | SocialPlatform.facebook => 4 / 100)
    + (match t with
       | ToneOfVoice.thought_leader => 2 / 100
       | ToneOfVoice.inspirational => 1 / 100
       | _ => 0)

/-- Modelled from the spec: predict (spec section 4.5). The base rate comes
from the lookup table; confidence is lower when historical aggregates are
missing but never zero; a suggestion is generated when no call-to-action was
detected; expected_timeline maps the horizons to cumulative-reach fractions
of the platform's reach curve. -/
def predict (opt : ContentOptimization) (historical : List (String × ℚ)) :
    EngagementPrediction :=
  { predicted_metrics := [("engagement_rate", baseRate opt.platform opt.tone)]
    confidence_score := if historical.isEmpty then 60 / 100 else 85 / 100
    key_factors := []
    optimization_suggestions :=
      if opt.call_to_action = "" then ["add a call-to-action"] else []
    risk_factors := []
    expected_timeline := timelineKeys.zip (cumFractions (reachIncrements opt.platform)) }

/-! ## Sample values used by the witnesses -/

/-- A concrete ContentOptimization. -/
def sampleOptimization : ContentOptimization :=
  { platform := SocialPlatform.linkedin
    content_type := ContentType.post
    title := "Growth"
    caption := "We helped a client grow revenue 40%"
    hashtags := ["#growth", "#consulting"]
    tone := ToneOfVoice.professional
    call_to_action := "Contact us"
    image_specs :=
      { dimensions := (1200, 627)
        aspect_ratio := 1200 / 627
        format := "png"
        quality := 95
        color_profile := "sRGB"
        brand_elements_required := true }
    engagement_elements := []
    optimal_posting_time := "Tuesday 09:00"
    performance_predictions := [("engagement_rate", 6 / 100)]
    brand_compliance := [("overall_compliant", true)] }

/-- A concrete EngagementPrediction. -/
def samplePrediction : EngagementPrediction :=
  predict sampleOptimization []

/-- A concrete fetch environment. -/
def sampleFetchEnv : FetchEnv :=
  { singleOk := true
    singleStatus := 200
    singlePayload := sampleOptimization
    multiOk := true
    multiStatus := 200
    multiPayload := [("linkedin", [sampleOptimization])]
    predictOk := true
    predictPayload := samplePrediction }

/-- A store state whose insight text is whitespace only. -/
def blankAppState : AppState :=
  { isLoading := false
    currentOptimization := none
    multiPlatformCampaign := none
    engagementPrediction := none
    optimizationHistory := []
    inputContent := " \t "
    selectedPlatforms := [SocialPlatform.linkedin]
    selectedContentType := ContentType.post
    selectedTone := ToneOfVoice.professional
    targetAudience := "business_leaders"
    apiError := none }

/-! ## Theorems -/

/-- C1: the compliance verdict boundary is inclusive. Whenever a generated
asset's compliance score is at least the brand profile's minimum compliance
score, v_brand_compliance_summary counts the asset compliant and not
non-compliant; the brand-profile default minimum is 0.80, so an asset scoring
exactly 0.80 against it is counted compliant. -/
theorem compliance_boundary_inclusive (bp : BrandProfileRow) (ga : GeneratedAssetRow)
    (s : ℚ) (hs : ga.compliance_score = some s)
    (hge : bp.minimum_compliance_score ≤ s) :
    compliantAssets bp [ga] = 1 ∧ nonCompliantAssets bp [ga] = 0 ∧
      defaultMinimumComplianceScore = 80 / 100 := by
  refine ⟨?_, ?_, rfl⟩
  · simp [compliantAssets, sqlGeScore, hs, hge]
  · simp [nonCompliantAssets, sqlLtScore, hs, not_lt.mpr hge]

/-- C1 witness: Scenario B — minimum_compliance_score 0.80 and a score of
exactly 0.80 count as compliant. -/
theorem compliance_boundary_inclusive_witness :
    compliantAssets
        { enforcement_level := "moderate",
          minimum_compliance_score := defaultMinimumComplianceScore, is_active := true }
        [{ compliance_score := some (80 / 100), validation_status := "passed" }] = 1 ∧
      nonCompliantAssets
        { enforcement_level := "moderate",
          minimum_compliance_score := defaultMinimumComplianceScore, is_active := true }
        [{ compliance_score := some (80 / 100), validation_status := "passed" }] = 0 ∧
      defaultMinimumComplianceScore = 80 / 100 :=
  compliance_boundary_inclusive
    { enforcement_level := "moderate",
      minimum_compliance_score := defaultMinimumComplianceScore, is_active := true }
    { compliance_score := some (80 / 100), validation_status := "passed" }
    (80 / 100) rfl (by norm_num [defaultMinimumComplianceScore])

/-- C5: every content_requests row reachable through the schema's mutation
paths has one of exactly the eight CHECK-permitted status values. -/
theorem content_request_status_closed (r : ContentRequestRow) (h : ReachableCR r) :
    contentRequestStatusOk r.status = true ∧ contentRequestStatuses.length = 8 := by
  refine ⟨?_, rfl⟩
  induction h with
  | insert r0 r' h0 =>
    unfold insertContentRequest at h0
    split at h0
    · next hc =>
      cases h0
      simp only [contentRequestChecks, Bool.and_eq_true] at hc
      exact hc.1.1
    · cases h0
  | update r0 s r' hr h0 ih =>
    unfold updateContentRequestStatus at h0
    split at h0
    · next hc =>
      cases h0
      simp only [contentRequestChecks, Bool.and_eq_true] at hc
      exact hc.1.1
    · cases h0

/-- C5 witness: a freshly inserted pending request has a permitted status. -/
theorem content_request_status_closed_witness :
    contentRequestStatusOk sampleContentRequest.status = true ∧
      contentRequestStatuses.length = 8 :=
  content_request_status_closed sampleContentRequest
    (ReachableCR.insert sampleContentRequest sampleContentRequest (by decide))

/-- C7: the schema makes a cancelled state unrepresentable. The CHECK
constraint on content_requests.status (line 204) has no 'cancelled' value, so
an update moving any request to 'cancelled' is rejected, as is an insert —
yet the schema's own view v_active_content_requests (line 711) filters on
status NOT IN ('archived', 'cancelled'), i.e. it expects cancelled rows to
exist. Evaluating the code at the failing input: -/
theorem cancelled_status_unrepresentable :
    (∀ r : ContentRequestRow, updateContentRequestStatus r "cancelled" = none) ∧
      insertContentRequest { sampleContentRequest with status := "cancelled" } = none ∧
      vActiveStatusFilter "cancelled" = false ∧
      contentRequestStatusOk "cancelled" = false := by
  refine ⟨?_, by decide, by decide, by decide⟩
  intro r
  have hfalse : contentRequestStatusOk "cancelled" = false := by decide
  simp [updateContentRequestStatus, contentRequestChecks, hfalse]

/-- C6 counterexample: the api_usage table has no CHECK constraint, so an
insert with cost_per_request = -1 is accepted and stores a negative cost. -/
theorem api_usage_negative_cost_accepted :
    insertApiUsage negCostUsageRow = some negCostUsageRow ∧
      negCostUsageRow.cost_per_request = some (-1 : ℚ) ∧ (-1 : ℚ) < 0 :=
  ⟨by decide, rfl, by norm_num⟩

/-- C6 amended: the schema validates api_usage.cost_per_request only for
DECIMAL(10,4) representability, never for sign — every representable cost,
negative ones included, is accepted. -/
theorem api_usage_cost_sign_unconstrained (r : ApiUsageRow) (c : ℚ)
    (hden : c.den ∣ 10000) (habs : |c| < 1000000) :
    insertApiUsage { r with cost_per_request := some c } =
      some { r with cost_per_request := some c } := by
  simp [insertApiUsage, decimal104Ok, hden, habs]

/-- C6 amended witness: a negative cost of -1 is accepted. -/
theorem api_usage_cost_sign_unconstrained_witness :
    insertApiUsage { negCostUsageRow with cost_per_request := some (-1 : ℚ) } =
      some { negCostUsageRow with cost_per_request := some (-1 : ℚ) } :=
  api_usage_cost_sign_unconstrained negCostUsageRow (-1) (by decide) (by decide)

/-- C8: a submission whose insight text is empty or whitespace only is
rejected by handleOptimizeContent before any state is created: no fetch is
issued and the state — in particular currentOptimization,
multiPlatformCampaign and optimizationHistory — is unchanged. -/
theorem handleOptimizeContent_rejects_blank (env : FetchEnv) (st : AppState)
    (h : jsTrim st.inputContent = "") :
    handleOptimizeContent env st = (st, []) := by
  simp [handleOptimizeContent, h]

/-- C8 witness: a whitespace-only insight in an otherwise ready state issues
no request and leaves the state alone. -/
theorem handleOptimizeContent_rejects_blank_witness :
    handleOptimizeContent sampleFetchEnv blankAppState = (blankAppState, []) :=
  handleOptimizeContent_rejects_blank sampleFetchEnv blankAppState (by decide)

/-- Helper for C9: a fold of addToHistory keeps the history within ten
entries. -/
theorem historyFold_length_le (ops : List ContentOptimization)
    (h : List ContentOptimization) (hle : h.length ≤ 10) :
    (ops.foldl (fun acc o => addToHistory o acc) h).length ≤ 10 := by
  induction ops generalizing h with
  | nil => exact hle
  | cons o rest ih =>
    refine ih (addToHistory o h) ?_
    simp only [addToHistory, List.length_cons, List.length_take]
    omega

/-- C9: starting from the initial store state, optimizationHistory never
exceeds ten entries, the most recently added optimization sits at index 0,
and adding to a full ten-entry history drops the oldest entry. -/
theorem addToHistory_bounded_newest_first (ops : List ContentOptimization)
    (o : ContentOptimization) :
    (historyAfter ops).length ≤ 10 ∧
      (historyAfter (ops ++ [o])).head? = some o ∧
      ((historyAfter ops).length = 10 →
        historyAfter (ops ++ [o]) = o :: (historyAfter ops).dropLast) := by
  have hstep : historyAfter (ops ++ [o]) = addToHistory o (historyAfter ops) := by
    unfold historyAfter
    rw [List.foldl_append]
    rfl
  refine ⟨historyFold_length_le ops [] (by simp), ?_, ?_⟩
  · rw [hstep]
    rfl
  · intro h10
    rw [hstep, List.dropLast_eq_take, h10]
    rfl

/-- C10: with optimization null and a non-null campaign holding no platform
entries, AnalyticsPanel's empty-state guard does not fire (it only checks for
null), while the Avg Engagement and Brand Compliance statistics divide by the
zero length of the flattened campaign, producing a non-finite (NaN) value
instead of a guarded one. -/
theorem analytics_empty_campaign_nan
    (campaign : List (String × List ContentOptimization))
    (h : flatCampaign campaign = []) :
    analyticsEmptyGuard none (some campaign) = false ∧
      avgEngagementStat campaign = none ∧
      brandComplianceStat campaign = none := by
  refine ⟨rfl, ?_, ?_⟩
  · simp [avgEngagementStat, h, jsDiv]
  · simp [brandComplianceStat, h, jsDiv]

/-- C10 witness: the empty campaign object. -/
theorem analytics_empty_campaign_nan_witness :
    analyticsEmptyGuard none (some ([] : List (String × List ContentOptimization))) = false ∧
      avgEngagementStat ([] : List (String × List ContentOptimization)) = none ∧
      brandComplianceStat ([] : List (String × List ContentOptimization)) = none :=
  analytics_empty_campaign_nan [] rfl

/-- Helper for C2: a rejected record never sits in the dropped-last part. -/
theorem rejected_not_mem_dropLast (l : List Decision)
    (h : Decision.rejected ∉ l) : Decision.rejected ∉ l.dropLast :=
  fun hm => h (List.dropLast_subset _ hm)

/-- Helper for C2: one decision event preserves the fail-fast invariant. -/
theorem applyDecision_inv (n : Nat) (st : WfState) (d : Decision)
    (h : WfInv st) : WfInv (applyDecision n st d) := by
  by_cases hrv : st.requestStatus = "review"
  · have hnr : Decision.rejected ∉ st.decisions := h.1 hrv
    have hnd : Decision.rejected ∉ st.decisions.dropLast :=
      rejected_not_mem_dropLast _ hnr
    cases hl : st.decisions.getLast? with
    | none => simpa [applyDecision, hrv, hl] using h
    | some dl =>
      cases dl with
      | pending =>
        cases d with
        | pending => simpa [applyDecision, hrv, hl] using h
        | delegated => simpa [applyDecision, hrv, hl] using h
        | approved =>
          by_cases hlen : st.decisions.length - 1 + 1 < n
          · have happ : applyDecision n st Decision.approved =
                { requestStatus := "review",
                  decisions :=
                    st.decisions.dropLast ++ [Decision.approved] ++ [Decision.pending] } := by
              simp [applyDecision, hrv, hl, hlen]
            rw [happ]
            constructor
            · intro _ hm
              rcases List.mem_append.mp hm with hm1 | hm2
              · rcases List.mem_append.mp hm1 with hm3 | hm4
                · exact hnd hm3
                · simp at hm4
              · simp at hm2
            · intro hm
              exfalso
              rcases List.mem_append.mp hm with hm1 | hm2
              · rcases List.mem_append.mp hm1 with hm3 | hm4
                · exact hnd hm3
                · simp at hm4
              · simp at hm2
          · have happ : applyDecision n st Decision.approved =
                { requestStatus := "approved",
                  decisions := st.decisions.dropLast ++ [Decision.approved] } := by
              simp [applyDecision, hrv, hl, hlen]
            rw [happ]
            constructor
            · intro hq
              simp at hq
            · intro hm
              exfalso
              rcases List.mem_append.mp hm with hm1 | hm2
              · exact hnd hm1
              · simp at hm2
        | rejected =>
          have happ : applyDecision n st Decision.rejected =
              { requestStatus := "rejected",
                decisions := st.decisions.dropLast ++ [Decision.rejected] } := by
            simp [applyDecision, hrv, hl]
          rw [happ]
          constructor
          · intro hq
            simp at hq
          · intro _
            exact ⟨rfl, st.decisions.dropLast, rfl, hnd⟩
      | approved => simpa [applyDecision, hrv, hl] using h
      | rejected => simpa [applyDecision, hrv, hl] using h
      | delegated => simpa [applyDecision, hrv, hl] using h
  · simpa [applyDecision, hrv] using h

/-- Helper for C2: the invariant is preserved by any fold of decision events. -/
theorem foldWf_inv (n : Nat) (ds : List Decision) (st : WfState)
    (h : WfInv st) : WfInv (ds.foldl (applyDecision n) st) := by
  induction ds generalizing st with
  | nil => exact h
  | cons d rest ih => exact ih _ (applyDecision_inv n st d h)

/-- Helper for C2: the invariant holds after any run of decision events. -/
theorem runWf_inv (n : Nat) (ds : List Decision) : WfInv (runWf n ds) := by
  refine foldWf_inv n ds initWf ⟨?_, ?_⟩
  · intro _ hm
    simp [initWf] at hm
  · intro hm
    simp [initWf] at hm

/-- C2: fail-fast rejection. After any run of decision events on a workflow
of n configured steps, a rejected step record forces the whole request status
to rejected, and no step record after the rejected one is approved (in fact
no later record exists at all: remaining steps are skipped). -/
theorem wf_reject_fail_fast (n : Nat) (ds : List Decision) (i j : Nat)
    (hi : i < (runWf n ds).decisions.length)
    (hj : j < (runWf n ds).decisions.length)
    (hrej : (runWf n ds).decisions.get ⟨i, hi⟩ = Decision.rejected) :
    (runWf n ds).requestStatus = "rejected" ∧
      (i < j → (runWf n ds).decisions.get ⟨j, hj⟩ ≠ Decision.approved) := by
  have hmem : Decision.rejected ∈ (runWf n ds).decisions := by
    rw [← hrej]
    exact List.get_mem _ _ _
  obtain ⟨hstat, pre, hshape, hnp⟩ := (runWf_inv n ds).2 hmem
  refine ⟨hstat, ?_⟩
  intro hij _
  have hopt : (runWf n ds).decisions[i]? = some Decision.rejected := by
    rw [List.getElem?_eq_getElem hi]
    simp only [List.get_eq_getElem] at hrej
    rw [hrej]
  rw [hshape] at hopt
  have hipre : ¬ i < pre.length := by
    intro hlt
    rw [List.getElem?_append_left hlt] at hopt
    exact hnp (List.getElem?_mem hopt)
  have hlen : (runWf n ds).decisions.length = pre.length + 1 := by
    rw [hshape]
    simp
  rw [hlen] at hj
  omega

/-- C2 witness: Scenario E shape — a three-step workflow where step 1 is
approved and step 2 rejected ends with the request rejected (and step 3 never
recorded, so index 1 is the last). -/
theorem wf_reject_fail_fast_witness :
    (runWf 3 [Decision.approved, Decision.rejected]).requestStatus = "rejected" ∧
      (1 < 1 →
        (runWf 3 [Decision.approved, Decision.rejected]).decisions.get
          ⟨1, by decide⟩ ≠ Decision.approved) :=
  wf_reject_fail_fast 3 [Decision.approved, Decision.rejected] 1 1
    (by decide) (by decide) (by decide)

/-- Helper for C3: across a fold of atomic reserve steps, grants plus
remaining tokens stay constant. -/
theorem reserveFold_grants_add_tokens (schedule : List Nat) (g : Nat) (b : Bucket) :
    (schedule.foldl reserveStep (g, b)).1 + (schedule.foldl reserveStep (g, b)).2.tokens =
      g + b.tokens := by
  induction schedule generalizing g b with
  | nil => rfl
  | cons t rest ih =>
    simp only [List.foldl_cons]
    by_cases hz : b.tokens = 0
    · have hstep : reserveStep (g, b) t = (g, b) := by
        simp [reserveStep, Bucket.reserve, hz]
      rw [hstep, ih]
    · have hstep : reserveStep (g, b) t = (g + 1, { b with tokens := b.tokens - 1 }) := by
        simp [reserveStep, Bucket.reserve, hz]
      rw [hstep, ih]
      show g + 1 + (b.tokens - 1) = g + b.tokens
      omega

/-- C3: at most C of any set of concurrent reserve calls against a bucket of
capacity C are granted. The spec requires reserve/record to be linearizable
(atomic compare-and-swap or mutex-guarded counter), so every interleaving of
the N concurrent calls takes effect as some linearization order `schedule`;
for all of them the grant count stays within the capacity. -/
theorem governor_reserve_at_most_capacity (C : Nat) (schedule : List Nat) :
    (runReserves (Bucket.mk C C) schedule).1 ≤ C := by
  have h := reserveFold_grants_add_tokens schedule 0 (Bucket.mk C C)
  have h2 : (List.foldl reserveStep (0, Bucket.mk C C) schedule).1 +
      (List.foldl reserveStep (0, Bucket.mk C C) schedule).2.tokens = C := by
    rw [h]
    show 0 + C = C
    omega
  unfold runReserves
  omega

/-- C4: for every input, the engagement prediction's expected_timeline,
taken in increasing order of its horizons 1h, 6h, 24h, 7d, is monotonically
non-decreasing and every value is at most 1.0. -/
theorem predict_timeline_monotone_bounded (opt : ContentOptimization)
    (historical : List (String × ℚ)) :
    List.Chain' (fun a b : ℚ => a ≤ b)
        (((predict opt historical).expected_timeline).map Prod.snd) ∧
      ∀ v ∈ ((predict opt historical).expected_timeline).map Prod.snd, v ≤ (1 : ℚ) := by
  have h : (predict opt historical).expected_timeline =
      timelineKeys.zip (cumFractions (reachIncrements opt.platform)) := rfl
  rw [h]
  cases opt.platform <;>
    norm_num [timelineKeys, reachIncrements, cumFractions, cumSums,
      List.chain'_cons, List.chain'_singleton]
